import Mathlib

/-!
# helloMJ: the route handlers of `server.js`

A shallow embedding of the Express application defined in `server.js`:
the middleware registered ahead of the routes, the ten registered routes, the
catch-all registered with `app.use('*', ...)` and the error-handling
middleware.

* A handler is a function from the request object it receives (`Request`) and
  the readings it takes from the process (`Runtime`: the clock, the uptime,
  `process.env.NODE_ENV`) to the response it sends (`Response`: the argument
  of `res.status` and the argument of `res.json`).
* JavaScript values are the values JSON can carry (`JSValue`); `undefined`,
  the result of reading a property an object does not have, is `none`.
* Numbers are IEEE doubles.  Every finite double is a rational, and the code
  only compares numbers and tests them against zero, so a finite number is
  carried as its rational value (`JSNumber.finite`, where `0` stands for both
  zeros, which this code cannot tell apart).
* Which registered route a request matches is decided by the Express router,
  which is not part of `server.js`; `dispatch` takes that decision procedure as
  the parameter `routeMatch` and walks the routes in registration order.
* `app` is the whole application: `cors()` answers an `OPTIONS` request before
  anything else runs, a fault of the body parsers or of the router decoding the
  path for the catch-all goes to the error-handling middleware, and every other
  request reaches `dispatch`.  Its result is a
  `Reply`: the status code of the status line, which the HTTP layer writes
  after coercing the handler's status to an integer, and the JSON payload.
  That the HTTP layer transmits no payload for a `HEAD` request or a bodyless
  status is not modelled.
-/

namespace HelloMJ

/-! ## Values -/

/-- A JavaScript number. -/
inductive JSNumber where
  | finite (q : ℚ)
  | posInf
  | negInf
  | nan
  deriving DecidableEq

/-- A JavaScript value as it occurs in a parsed request body or in a JSON
response: objects list their own properties in insertion order. -/
inductive JSValue where
  | null
  | bool (b : Bool)
  | num (n : JSNumber)
  | str (s : String)
  | arr (items : List JSValue)
  | obj (props : List (String × JSValue))

/-- The own properties of an object. -/
abbrev JSObject := List (String × JSValue)

/-- The relational operator `a < b` on numbers (`a > b` is `b < a`): every
comparison with `NaN` is false. -/
def JSNumber.lt : JSNumber → JSNumber → Bool
  | .nan, _ => false
  | _, .nan => false
  | .finite a, .finite b => decide (a < b)
  | .finite _, .posInf => true
  | .finite _, .negInf => false
  | .posInf, _ => false
  | .negInf, .negInf => false
  | .negInf, _ => true

/-- Conversion of a number to a string, as a template literal does it: an
integer below `2^53` in magnitude prints as its decimal digits; every other
finite number is printed by the runtime's shortest-round-trip algorithm, which
is taken as the parameter `fmt`. -/
def JSNumber.toJSString (fmt : ℚ → String) : JSNumber → String
  | .finite q => if q.den = 1 ∧ q.num.natAbs < 2 ^ 53 then toString q.num else fmt q
  | .posInf => "Infinity"
  | .negInf => "-Infinity"
  | .nan => "NaN"

/-- Property read `o.key` on an object, which holds each key once: `none` is
`undefined`. -/
def getProp : JSObject → String → Option JSValue
  | [], _ => none
  | (k, v) :: rest, key => if k = key then some v else getProp rest key

/-- Property read on a value; a value that is not an object has none of the
properties used here. -/
def JSValue.get : JSValue → String → Option JSValue
  | .obj props, key => getProp props key
  | _, _ => none

/-- Truthiness of a value (`none` is `undefined`), as `!v` and `v || w` test it. -/
def toBoolean : Option JSValue → Bool
  | none => false
  | some .null => false
  | some (.bool b) => b
  | some (.num (.finite q)) => decide (q ≠ 0)
  | some (.num .nan) => false
  | some (.num .posInf) => true
  | some (.num .negInf) => true
  | some (.str s) => decide (s ≠ "")
  | some (.arr _) => true
  | some (.obj _) => true

/-- The `typeof` operator (`none` is `undefined`). -/
def typeOf : Option JSValue → String
  | none => "undefined"
  | some .null => "object"
  | some (.bool _) => "boolean"
  | some (.num _) => "number"
  | some (.str _) => "string"
  | some (.arr _) => "object"
  | some (.obj _) => "object"

/-! ## Requests, responses and the process -/

/-- The request object as a route handler receives it, after the body parsers
have run: `req.body` is an object (`{}` when nothing was parsed). -/
structure Request where
  method : String
  path : String
  originalUrl : String
  body : JSObject

/-- What a handler reads from the process while serving one request. -/
structure Runtime where
  -- `new Date().toISOString()`
  now : String
  -- `process.uptime()`
  uptime : JSNumber
  -- `process.env.NODE_ENV`, `none` when unset
  nodeEnv : Option String
  -- how the runtime prints a number that is not a small integer
  fmt : ℚ → String

/-- A response: the status given to `res.status` (200 when the handler sets
none) and the value given to `res.json`. -/
structure Response where
  status : JSNumber
  body : JSValue

/-- The fault handed to the error-handling middleware: an `Error` with its message. -/
structure Fault where
  message : String

/-! ## Handlers -/

/-- Helper function to get status text: the table `statusTexts`. -/
def statusTexts : List (ℚ × String) :=
  [ (200, "OK"),
    (201, "Created"),
    (202, "Accepted"),
    (204, "No Content"),
    (400, "Bad Request"),
    (401, "Unauthorized"),
    (403, "Forbidden"),
    (404, "Not Found"),
    (405, "Method Not Allowed"),
    (409, "Conflict"),
    (422, "Unprocessable Entity"),
    (429, "Too Many Requests"),
    (500, "Internal Server Error"),
    (502, "Bad Gateway"),
    (503, "Service Unavailable"),
    (504, "Gateway Timeout") ]

/-- The read `statusTexts[code]`: the property whose numeric key is `code`. -/
def statusTextsAt : JSNumber → Option String
  | .finite q => (statusTexts.find? (fun e => decide (e.1 = q))).map (fun e => e.2)
  | _ => none

/-- The function `getStatusText`: `statusTexts[code] || 'Unknown Status'`. -/
def getStatusText (code : JSNumber) : String :=
  match statusTextsAt code with
  | some s => if s ≠ "" then s else "Unknown Status"
  | none => "Unknown Status"

/-- Handler of `GET /`. -/
def root (rt : Runtime) (_req : Request) : Response :=
  { status := .finite 200
    body := .obj
      [ ("message", .str "Hello MJ! API is running"),
        ("timestamp", .str rt.now),
        ("endpoints", .obj
          [ ("GET /", .str "Root endpoint"),
            ("GET /health", .str "Health check (200 OK)"),
            ("GET /health/200", .str "Success response"),
            ("GET /health/400", .str "Bad request response"),
            ("GET /health/401", .str "Unauthorized response"),
            ("GET /health/403", .str "Forbidden response"),
            ("GET /health/404", .str "Not found response"),
            ("GET /health/500", .str "Internal server error response"),
            ("GET /health/503", .str "Service unavailable response"),
            ("POST /health/custom",
              .str "Custom status code (send \x7b\"statusCode\": number\x7d in body)") ]) ] }

/-- The expression `process.env.NODE_ENV || 'development'`. -/
def environmentName (nodeEnv : Option String) : String :=
  match nodeEnv with
  | some s => if s ≠ "" then s else "development"
  | none => "development"

/-- Handler of `GET /health`. -/
def health (rt : Runtime) (_req : Request) : Response :=
  { status := .finite 200
    body := .obj
      [ ("status", .str "OK"),
        ("message", .str "Service is healthy"),
        ("timestamp", .str rt.now),
        ("uptime", .num rt.uptime),
        ("environment", .str (environmentName rt.nodeEnv)) ] }

/-- Handler of `GET /health/200`. -/
def health200 (rt : Runtime) (_req : Request) : Response :=
  { status := .finite 200
    body := .obj
      [ ("status", .str "OK"),
        ("statusCode", .num (.finite 200)),
        ("message", .str "Everything is working perfectly!"),
        ("timestamp", .str rt.now),
        ("data", .obj
          [ ("server", .str "healthy"),
            ("database", .str "connected"),
            ("cache", .str "operational") ]) ] }

/-- Handler of `GET /health/400`. -/
def health400 (rt : Runtime) (_req : Request) : Response :=
  { status := .finite 400
    body := .obj
      [ ("status", .str "Bad Request"),
        ("statusCode", .num (.finite 400)),
        ("message", .str "Invalid request parameters"),
        ("timestamp", .str rt.now),
        ("error", .obj
          [ ("type", .str "ValidationError"),
            ("details", .str "Missing required parameters or invalid format") ]) ] }

/-- Handler of `GET /health/401`. -/
def health401 (rt : Runtime) (_req : Request) : Response :=
  { status := .finite 401
    body := .obj
      [ ("status", .str "Unauthorized"),
        ("statusCode", .num (.finite 401)),
        ("message", .str "Authentication required"),
        ("timestamp", .str rt.now),
        ("error", .obj
          [ ("type", .str "AuthenticationError"),
            ("details", .str "Valid authentication token required") ]) ] }

/-- Handler of `GET /health/403`. -/
def health403 (rt : Runtime) (_req : Request) : Response :=
  { status := .finite 403
    body := .obj
      [ ("status", .str "Forbidden"),
        ("statusCode", .num (.finite 403)),
        ("message", .str "Access denied"),
        ("timestamp", .str rt.now),
        ("error", .obj
          [ ("type", .str "AuthorizationError"),
            ("details", .str "Insufficient permissions to access this resource") ]) ] }

/-- Handler of `GET /health/404`. -/
def health404 (rt : Runtime) (_req : Request) : Response :=
  { status := .finite 404
    body := .obj
      [ ("status", .str "Not Found"),
        ("statusCode", .num (.finite 404)),
        ("message", .str "Resource not found"),
        ("timestamp", .str rt.now),
        ("error", .obj
          [ ("type", .str "NotFoundError"),
            ("details", .str "The requested resource could not be found") ]) ] }

/-- Handler of `GET /health/500`. -/
def health500 (rt : Runtime) (_req : Request) : Response :=
  { status := .finite 500
    body := .obj
      [ ("status", .str "Internal Server Error"),
        ("statusCode", .num (.finite 500)),
        ("message", .str "Something went wrong on the server"),
        ("timestamp", .str rt.now),
        ("error", .obj
          [ ("type", .str "InternalServerError"),
            ("details", .str "An unexpected error occurred while processing the request") ]) ] }

/-- Handler of `GET /health/503`. -/
def health503 (rt : Runtime) (_req : Request) : Response :=
  { status := .finite 503
    body := .obj
      [ ("status", .str "Service Unavailable"),
        ("statusCode", .num (.finite 503)),
        ("message", .str "Service is temporarily unavailable"),
        ("timestamp", .str rt.now),
        ("error", .obj
          [ ("type", .str "ServiceUnavailableError"),
            ("details", .str "Service is down for maintenance or overloaded") ]) ] }

/-- The first 400 response of `POST /health/custom`: no usable `statusCode`. -/
def customInvalid (rt : Runtime) : Response :=
  { status := .finite 400
    body := .obj
      [ ("status", .str "Bad Request"),
        ("statusCode", .num (.finite 400)),
        ("message", .str "Please provide a valid statusCode number in the request body"),
        ("timestamp", .str rt.now),
        ("example", .obj [("statusCode", .num (.finite 201))]) ] }

/-- The second 400 response of `POST /health/custom`: `statusCode` out of range. -/
def customOutOfRange (rt : Runtime) : Response :=
  { status := .finite 400
    body := .obj
      [ ("status", .str "Bad Request"),
        ("statusCode", .num (.finite 400)),
        ("message", .str "Status code must be between 100 and 599"),
        ("timestamp", .str rt.now) ] }

/-- The response of `POST /health/custom` that carries the requested status. -/
def customEcho (rt : Runtime) (statusCode : JSNumber) : Response :=
  { status := statusCode
    body := .obj
      [ ("status", .str (getStatusText statusCode)),
        ("statusCode", .num statusCode),
        ("message", .str ("Custom response with status code " ++ statusCode.toJSString rt.fmt)),
        ("timestamp", .str rt.now),
        ("custom", .bool true) ] }

/-- Handler of `POST /health/custom`.  Past the first guard `typeof statusCode`
is `'number'`, so the value is a number; the last arm of the `match` is not
reached. -/
def custom (rt : Runtime) (req : Request) : Response :=
  let statusCode := getProp req.body "statusCode"
  if !toBoolean statusCode || typeOf statusCode != "number" then
    customInvalid rt
  else
    match statusCode with
    | some (.num n) =>
        if n.lt (.finite 100) || JSNumber.lt (.finite 599) n then
          customOutOfRange rt
        else
          customEcho rt n
    | _ => customInvalid rt

/-- Handler registered with `app.use('*', ...)`: 404 for undefined routes. -/
def notFound (rt : Runtime) (req : Request) : Response :=
  { status := .finite 404
    body := .obj
      [ ("status", .str "Not Found"),
        ("statusCode", .num (.finite 404)),
        ("message", .str ("Route " ++ req.method ++ " " ++ req.originalUrl ++ " not found")),
        ("timestamp", .str rt.now),
        ("availableEndpoints", .arr
          [ .str "GET /",
            .str "GET /health",
            .str "GET /health/200",
            .str "GET /health/400",
            .str "GET /health/401",
            .str "GET /health/403",
            .str "GET /health/404",
            .str "GET /health/500",
            .str "GET /health/503",
            .str "POST /health/custom" ]) ] }

/-- The error-handling middleware. -/
def errorHandler (rt : Runtime) (err : Fault) : Response :=
  { status := .finite 500
    body := .obj
      [ ("status", .str "Internal Server Error"),
        ("statusCode", .num (.finite 500)),
        ("message", .str "Something went wrong!"),
        ("timestamp", .str rt.now),
        ("error", .str
          (if rt.nodeEnv = some "development" then err.message else "Internal server error")) ] }

/-! ## Routing -/

/-- A registered route: `app.get(path, handler)` or `app.post(path, handler)`. -/
structure Route where
  method : String
  path : String
  handler : Runtime → Request → Response

/-- The routes of `server.js`, in registration order. -/
def routes : List Route :=
  [ ⟨"GET", "/", root⟩,
    ⟨"GET", "/health", health⟩,
    ⟨"GET", "/health/200", health200⟩,
    ⟨"GET", "/health/400", health400⟩,
    ⟨"GET", "/health/401", health401⟩,
    ⟨"GET", "/health/403", health403⟩,
    ⟨"GET", "/health/404", health404⟩,
    ⟨"GET", "/health/500", health500⟩,
    ⟨"GET", "/health/503", health503⟩,
    ⟨"POST", "/health/custom", custom⟩ ]

/-- The first registered route the request matches, where `routeMatch method path req`
is the router's decision whether `req` matches a route registered for `method`
at `path`. -/
def findRoute (routeMatch : String → String → Request → Bool) (req : Request) : Option Route :=
  routes.find? (fun r => routeMatch r.method r.path req)

/-- The routes and the catch-all, for a request that the middleware registered
ahead of them has passed on: the first matching route answers; a request that
matches no route falls through to the catch-all. -/
def dispatch (routeMatch : String → String → Request → Bool) (rt : Runtime) (req : Request) :
    Response :=
  match findRoute routeMatch req with
  | some r => r.handler rt req
  | none => notFound rt req

/-- A request as it arrives, before any middleware has run.  The body parsers
`express.json()` and `express.urlencoded()` are not part of `server.js`;
`parsed` is their outcome: the object they leave in `req.body`, or the fault
they pass on when the body cannot be parsed.  Likewise `wildcard` is the
outcome of the router decoding the path as the parameter of the catch-all
pattern `*` (`decodeURIComponent`): the decoded text, or the fault raised for
a path that is not a valid percent-encoding. -/
structure Incoming where
  method : String
  path : String
  originalUrl : String
  parsed : Except Fault JSObject
  wildcard : Except Fault String

/-- The request object the routes receive once the body parsers have left `body`
in `req.body`. -/
def Incoming.toRequest (inc : Incoming) (body : JSObject) : Request :=
  { method := inc.method, path := inc.path, originalUrl := inc.originalUrl, body := body }

/-- What the application answers: the status code of the status line and the
JSON payload, `none` when the response is ended without one. -/
structure Reply where
  status : ℤ
  body : Option JSValue

/-- The method `toUpperCase` on the ASCII text of a request method. -/
def toUpperCase (s : String) : String :=
  ⟨s.data.map Char.toUpper⟩

/-- The conversion of a number to a 32-bit integer, as `statusCode |= 0` in the
HTTP layer does it: the fraction is dropped, the integer is reduced modulo
`2^32` into the signed range, and `NaN` and the infinities give 0. -/
def toInt32 : JSNumber → ℤ
  | .finite q =>
      let t := q.num.tdiv q.den
      let m := t % 4294967296
      if m < 2147483648 then m else m - 4294967296
  | _ => 0

/-- The reply the HTTP layer writes for the response of a handler.  The layer
refuses a status outside 100..999; every handler of `server.js` sets a status
within 100..599 (`send_status_range`), so that case does not arise. -/
def send (r : Response) : Reply :=
  { status := toInt32 r.status, body := some r.body }

/-- The routes and the catch-all as the router runs them: when no route matches
and the path cannot be decoded for the catch-all pattern, that fault reaches
the error-handling middleware; every other request is answered by `dispatch`. -/
def routed (routeMatch : String → String → Request → Bool) (rt : Runtime) (req : Request)
    (wildcard : Except Fault String) : Response :=
  match findRoute routeMatch req, wildcard with
  | none, .error err => errorHandler rt err
  | _, _ => dispatch routeMatch rt req

/-- The application of `server.js`, in registration order.  `cors()` ends an
`OPTIONS` request with status 204 and no payload; a fault of the body parsers
skips the routes and the catch-all and reaches the error-handling middleware;
the logging middleware only prints; every other request goes to the routes
and the catch-all. -/
def app (routeMatch : String → String → Request → Bool) (rt : Runtime) (inc : Incoming) :
    Reply :=
  if toUpperCase inc.method = "OPTIONS" then
    { status := 204, body := none }
  else
    match inc.parsed with
    | .error err => send (errorHandler rt err)
    | .ok body => send (routed routeMatch rt (inc.toRequest body) inc.wildcard)

/-- The strictest matcher: the request carries exactly the registered method and
the registered path.  The Express router accepts further spellings of a
registered route; on a request spelled exactly the two agree. -/
def matchesLiteral (method path : String) (req : Request) : Bool :=
  req.method == method && req.path == path

/-- A runtime used in examples. -/
def sampleRuntime : Runtime :=
  { now := "2024-01-01T00:00:00.000Z"
    uptime := .finite 12
    nodeEnv := none
    fmt := fun _ => "" }

/-- The sample runtime with `NODE_ENV=production`. -/
def productionRuntime : Runtime :=
  { sampleRuntime with nodeEnv := some "production" }

/-- The sample runtime with `NODE_ENV=development`. -/
def developmentRuntime : Runtime :=
  { sampleRuntime with nodeEnv := some "development" }

/-- The sample runtime five seconds later in the same process. -/
def laterRuntime : Runtime :=
  { sampleRuntime with now := "2024-01-01T00:00:05.000Z", uptime := .finite 17 }

/-- The request `POST /health/custom` with the given parsed body. -/
def customRequest (body : JSObject) : Request :=
  { method := "POST", path := "/health/custom", originalUrl := "/health/custom", body := body }

/-- The request with the given method and URL and no body. -/
def plainRequest (method url : String) : Request :=
  { method := method, path := url, originalUrl := url, body := [] }

/-- The arriving request with the given method and URL whose body parses to `body`. -/
def incoming (method url : String) (body : JSObject) : Incoming :=
  { method := method, path := url, originalUrl := url, parsed := .ok body, wildcard := .ok url }

/-- The arriving request with the given method and URL whose body the JSON
parser rejects. -/
def malformed (method url : String) : Incoming :=
  { method := method, path := url, originalUrl := url
    parsed := .error ⟨"Unexpected end of JSON input"⟩, wildcard := .ok url }

/-- The arriving request with the given method and URL whose path is not a valid
percent-encoding. -/
def undecodable (method url : String) : Incoming :=
  { method := method, path := url, originalUrl := url
    parsed := .ok [], wildcard := .error ⟨"Failed to decode param \x27" ++ url ++ "\x27"⟩ }

/-- The number 200.5, that is 401/2. -/
def twoHundredAndAHalf : ℚ :=
  ⟨401, 2, by decide, by decide⟩

/-- The sample runtime, printing the fractional number 200.5. -/
def printingRuntime : Runtime :=
  { sampleRuntime with fmt := fun _ => "200.5" }

/-! ## The custom-status handler, branch by branch -/

theorem custom_of_num (rt : Runtime) (req : Request) (n : JSNumber)
    (h : getProp req.body "statusCode" = some (.num n)) :
    custom rt req =
      if toBoolean (some (.num n)) = false then customInvalid rt
      else if n.lt (.finite 100) = true ∨ JSNumber.lt (.finite 599) n = true then
        customOutOfRange rt
      else customEcho rt n := by
  simp only [custom, h]
  cases hb : toBoolean (some (.num n)) <;> simp [typeOf]

theorem custom_of_not_num (rt : Runtime) (req : Request)
    (h : ∀ n, getProp req.body "statusCode" ≠ some (.num n)) :
    custom rt req = customInvalid rt := by
  unfold custom
  cases hv : getProp req.body "statusCode" with
  | none => simp [toBoolean]
  | some v =>
    cases v with
    | num n => exact absurd hv (h n)
    | _ => simp [typeOf]

theorem toJSString_intCast (fmt : ℚ → String) (c : ℤ) (h : c.natAbs < 2 ^ 53) :
    (JSNumber.finite (c : ℚ)).toJSString fmt = toString c := by
  simp only [JSNumber.toJSString, Rat.intCast_den, Rat.intCast_num]
  rw [if_pos ⟨trivial, h⟩]

theorem custom_of_int_in_range (rt : Runtime) (req : Request) (c : ℤ)
    (h : getProp req.body "statusCode" = some (.num (.finite c)))
    (hlo : 100 ≤ c) (hhi : c ≤ 599) :
    custom rt req = customEcho rt (.finite c) := by
  have hc0 : (c : ℚ) ≠ 0 := by
    have : c ≠ 0 := by omega
    exact_mod_cast this
  have h1 : ¬ (c : ℚ) < 100 := by
    have : ¬ c < 100 := by omega
    exact_mod_cast this
  have h2 : ¬ (599 : ℚ) < c := by
    have : ¬ 599 < c := by omega
    exact_mod_cast this
  rw [custom_of_num rt req _ h]
  simp [toBoolean, JSNumber.lt, hc0, h1, h2]

/-- Every number that is out of range and is not zero gets the range response. -/
theorem custom_of_out_of_range (rt : Runtime) (req : Request) (n : JSNumber)
    (h : getProp req.body "statusCode" = some (.num n))
    (hz : n ≠ .finite 0)
    (hr : n.lt (.finite 100) = true ∨ JSNumber.lt (.finite 599) n = true) :
    custom rt req = customOutOfRange rt := by
  rw [custom_of_num rt req _ h]
  have ht : toBoolean (some (.num n)) = true := by
    cases n with
    | finite q =>
      have : q ≠ 0 := fun hq => hz (by rw [hq])
      simp [toBoolean, this]
    | posInf => rfl
    | negInf => rfl
    | nan => simp [JSNumber.lt] at hr
  simp [ht, hr]

/-! ## Properties of the custom-status handler and of the status table -/

/-- C1: a request body whose `statusCode` is an integer `c` with `100 ≤ c ≤ 599`
is answered by `POST /health/custom` with HTTP status `c` and the body
`{status: getStatusText(c), statusCode: c, message: "Custom response with status
code " followed by the digits of c, timestamp, custom: true}`; the answer is
neither of the two validation responses, and its status is 400 only when `c`
is 400. -/
theorem custom_echoes_in_range (rt : Runtime) (req : Request) (c : ℤ)
    (h : getProp req.body "statusCode" = some (.num (.finite c)))
    (hlo : 100 ≤ c) (hhi : c ≤ 599) :
    custom rt req =
        { status := .finite c
          body := .obj
            [ ("status", .str (getStatusText (.finite c))),
              ("statusCode", .num (.finite c)),
              ("message", .str ("Custom response with status code " ++ toString c)),
              ("timestamp", .str rt.now),
              ("custom", .bool true) ] } ∧
      (custom rt req).status = .finite c ∧
      (custom rt req).body.get "statusCode" = some (.num (.finite c)) ∧
      (custom rt req).body.get "custom" = some (.bool true) ∧
      (custom rt req).body.get "message" =
        some (.str ("Custom response with status code " ++ toString c)) ∧
      custom rt req ≠ customInvalid rt ∧
      custom rt req ≠ customOutOfRange rt ∧
      ((custom rt req).status = .finite 400 → c = 400) := by
  have hs : (JSNumber.finite (c : ℚ)).toJSString rt.fmt = toString c :=
    toJSString_intCast rt.fmt c (by omega)
  have he := custom_of_int_in_range rt req c h hlo hhi
  rw [he]
  refine ⟨by simp [customEcho, hs], rfl, ?_, ?_, ?_, ?_, ?_, ?_⟩
  · simp [customEcho, JSValue.get, getProp]
  · simp [customEcho, JSValue.get, getProp]
  · simp [customEcho, JSValue.get, getProp, hs]
  · intro hEq
    have := congrArg (fun r => r.body.get "custom") hEq
    simp [customEcho, customInvalid, JSValue.get, getProp] at this
  · intro hEq
    have := congrArg (fun r => r.body.get "custom") hEq
    simp [customEcho, customOutOfRange, JSValue.get, getProp] at this
  · intro hEq
    simp only [customEcho] at hEq
    have hq : (c : ℚ) = 400 := by
      injection hEq
    exact_mod_cast hq

/-- C1, at the body `{statusCode: 201}`. -/
theorem custom_echoes_in_range_witness :
    custom sampleRuntime (customRequest [("statusCode", .num (.finite 201))]) =
        { status := .finite 201
          body := .obj
            [ ("status", .str "Created"),
              ("statusCode", .num (.finite 201)),
              ("message", .str "Custom response with status code 201"),
              ("timestamp", .str "2024-01-01T00:00:00.000Z"),
              ("custom", .bool true) ] } := by
  have h := (custom_echoes_in_range sampleRuntime
    (customRequest [("statusCode", .num (.finite 201))]) 201
    (by simp [customRequest, getProp]) (by decide) (by decide)).1
  rw [h]
  rfl

/-- C2, at `statusCode: 0`: the number 0 is below 100, but the handler answers
it with the first validation response (message "Please provide a valid
statusCode number in the request body", with the example payload), not with the
range response. -/
theorem custom_zero_not_range_response (rt : Runtime) :
    custom rt (customRequest [("statusCode", .num (.finite 0))]) = customInvalid rt ∧
      (JSNumber.finite 0).lt (.finite 100) = true ∧
      (custom rt (customRequest [("statusCode", .num (.finite 0))])).body.get "message" =
        some (.str "Please provide a valid statusCode number in the request body") ∧
      (custom rt (customRequest [("statusCode", .num (.finite 0))])).body.get "message" ≠
        some (.str "Status code must be between 100 and 599") := by
  have h : custom rt (customRequest [("statusCode", .num (.finite 0))]) = customInvalid rt := by
    simp [custom, customRequest, getProp, toBoolean]
  rw [h]
  refine ⟨rfl, by simp [JSNumber.lt], ?_, ?_⟩
  · simp [customInvalid, JSValue.get, getProp]
  · simp [customInvalid, JSValue.get, getProp]

/-- C3: a request body in which `statusCode` is absent or is not a number is
answered by `POST /health/custom` with HTTP 400 and the body `{status: "Bad
Request", statusCode: 400, message: "Please provide a valid statusCode number in
the request body", timestamp, example: {statusCode: 201}}`. -/
theorem custom_rejects_non_number (rt : Runtime) (req : Request)
    (h : ∀ n, getProp req.body "statusCode" ≠ some (.num n)) :
    custom rt req =
      { status := .finite 400
        body := .obj
          [ ("status", .str "Bad Request"),
            ("statusCode", .num (.finite 400)),
            ("message", .str "Please provide a valid statusCode number in the request body"),
            ("timestamp", .str rt.now),
            ("example", .obj [("statusCode", .num (.finite 201))]) ] } := by
  rw [custom_of_not_num rt req h]
  rfl

/-- C3, at the body `{statusCode: "200"}`. -/
theorem custom_rejects_non_number_witness :
    custom sampleRuntime (customRequest [("statusCode", .str "200")]) =
      { status := .finite 400
        body := .obj
          [ ("status", .str "Bad Request"),
            ("statusCode", .num (.finite 400)),
            ("message", .str "Please provide a valid statusCode number in the request body"),
            ("timestamp", .str sampleRuntime.now),
            ("example", .obj [("statusCode", .num (.finite 201))]) ] } :=
  custom_rejects_non_number sampleRuntime (customRequest [("statusCode", .str "200")])
    (by simp [customRequest, getProp])

/-- C4: `getStatusText` gives the canonical text for each of the sixteen codes
of the table and the literal "Unknown Status" for every other code (418 among
them); the custom response carries that text in `body.status`. -/
theorem getStatusText_table :
    getStatusText (.finite 200) = "OK" ∧
    getStatusText (.finite 201) = "Created" ∧
    getStatusText (.finite 202) = "Accepted" ∧
    getStatusText (.finite 204) = "No Content" ∧
    getStatusText (.finite 400) = "Bad Request" ∧
    getStatusText (.finite 401) = "Unauthorized" ∧
    getStatusText (.finite 403) = "Forbidden" ∧
    getStatusText (.finite 404) = "Not Found" ∧
    getStatusText (.finite 405) = "Method Not Allowed" ∧
    getStatusText (.finite 409) = "Conflict" ∧
    getStatusText (.finite 422) = "Unprocessable Entity" ∧
    getStatusText (.finite 429) = "Too Many Requests" ∧
    getStatusText (.finite 500) = "Internal Server Error" ∧
    getStatusText (.finite 502) = "Bad Gateway" ∧
    getStatusText (.finite 503) = "Service Unavailable" ∧
    getStatusText (.finite 504) = "Gateway Timeout" ∧
    getStatusText (.finite 418) = "Unknown Status" ∧
    (∀ code : JSNumber,
      (∀ k ∈ ([200, 201, 202, 204, 400, 401, 403, 404, 405, 409, 422, 429, 500, 502, 503,
          504] : List ℚ), code ≠ .finite k) →
      getStatusText code = "Unknown Status") ∧
    (∀ (rt : Runtime) (req : Request) (c : ℤ),
      getProp req.body "statusCode" = some (.num (.finite c)) → 100 ≤ c → c ≤ 599 →
      (custom rt req).body.get "status" = some (.str (getStatusText (.finite c)))) := by
  have hother : ∀ code : JSNumber,
      (∀ k ∈ ([200, 201, 202, 204, 400, 401, 403, 404, 405, 409, 422, 429, 500, 502, 503,
          504] : List ℚ), code ≠ .finite k) →
      getStatusText code = "Unknown Status" := by
    intro code h
    cases code with
    | finite q =>
      have hk : ∀ e ∈ statusTexts, ¬ e.1 = q := by
        intro e he hq
        have hmem : e.1 ∈ ([200, 201, 202, 204, 400, 401, 403, 404, 405, 409, 422, 429, 500,
            502, 503, 504] : List ℚ) := by
          have : e.1 ∈ statusTexts.map Prod.fst := List.mem_map_of_mem Prod.fst he
          simpa [statusTexts] using this
        exact h e.1 hmem (by rw [hq])
      have hfind : statusTexts.find? (fun e => decide (e.1 = q)) = none := by
        rw [List.find?_eq_none]
        intro e he
        simpa using hk e he
      simp [getStatusText, statusTextsAt, hfind]
    | _ => rfl
  have hcustom : ∀ (rt : Runtime) (req : Request) (c : ℤ),
      getProp req.body "statusCode" = some (.num (.finite c)) → 100 ≤ c → c ≤ 599 →
      (custom rt req).body.get "status" = some (.str (getStatusText (.finite c))) := by
    intro rt req c h hlo hhi
    rw [custom_of_int_in_range rt req c h hlo hhi]
    simp [customEcho, JSValue.get, getProp]
  repeat (refine ⟨by decide, ?_⟩)
  exact ⟨hother, hcustom⟩

/-- C4, at 418: the code is not in the table, and the custom response for
`{statusCode: 418}` has `body.status` "Unknown Status". -/
theorem getStatusText_table_witness :
    getStatusText (.finite 418) = "Unknown Status" ∧
      (custom sampleRuntime (customRequest [("statusCode", .num (.finite 418))])).body.get
        "status" = some (.str "Unknown Status") := by
  obtain ⟨_, _, _, _, _, _, _, _, _, _, _, _, _, _, _, _, _, hother, hcustom⟩ :=
    getStatusText_table
  have h418 : getStatusText (.finite 418) = "Unknown Status" :=
    hother (.finite 418) (by
      intro k hk
      have hne : k ≠ 418 := by
        intro hk418
        rw [hk418] at hk
        revert hk
        norm_num
      intro he
      injection he with he
      exact hne he.symm)
  refine ⟨h418, ?_⟩
  have hc := hcustom sampleRuntime (customRequest [("statusCode", .num (.finite 418))]) 418
    (by simp [customRequest, getProp]) (by decide) (by decide)
  rw [hc]
  have e : JSNumber.finite ((418 : ℤ) : ℚ) = JSNumber.finite 418 := by simp
  rw [e, h418]

/-! ## Routed requests -/

theorem dispatch_of_findRoute (routeMatch : String → String → Request → Bool) (rt : Runtime)
    (req : Request) (r : Route) (hr : findRoute routeMatch req = some r) :
    dispatch routeMatch rt req = r.handler rt req := by
  simp [dispatch, hr]

theorem findRoute_mem (routeMatch : String → String → Request → Bool) (req : Request)
    (r : Route) (hr : findRoute routeMatch req = some r) : r ∈ routes :=
  List.mem_of_find?_eq_some hr

/-- C5: a request whose first matching route is one of the fixed-status routes
gets the documented status and fields: `GET /` and `GET /health` answer 200;
`GET /health/200` answers 200 with `statusCode` 200, a status, a message, the
timestamp and `data{server, database, cache}`; for NNN in 400, 401, 403, 404,
500, 503, `GET /health/NNN` answers NNN with `statusCode` NNN, a status, a
message, the timestamp and `error{type, details}` with the documented type. -/
theorem fixed_status_routes (routeMatch : String → String → Request → Bool) (rt : Runtime)
    (req : Request) (r : Route) (hr : findRoute routeMatch req = some r)
    (hm : r.method = "GET") :
    (r.path = "/" →
      (dispatch routeMatch rt req).status = .finite 200 ∧
      (dispatch routeMatch rt req).body.get "message" = some (.str "Hello MJ! API is running") ∧
      (dispatch routeMatch rt req).body.get "timestamp" = some (.str rt.now) ∧
      ∃ o, (dispatch routeMatch rt req).body.get "endpoints" = some (.obj o)) ∧
    (r.path = "/health" →
      (dispatch routeMatch rt req).status = .finite 200 ∧
      (dispatch routeMatch rt req).body.get "status" = some (.str "OK") ∧
      (dispatch routeMatch rt req).body.get "message" = some (.str "Service is healthy") ∧
      (dispatch routeMatch rt req).body.get "timestamp" = some (.str rt.now) ∧
      (dispatch routeMatch rt req).body.get "uptime" = some (.num rt.uptime) ∧
      (dispatch routeMatch rt req).body.get "environment" =
        some (.str (environmentName rt.nodeEnv))) ∧
    (r.path = "/health/200" →
      (dispatch routeMatch rt req).status = .finite 200 ∧
      (dispatch routeMatch rt req).body.get "statusCode" = some (.num (.finite 200)) ∧
      (dispatch routeMatch rt req).body.get "status" = some (.str "OK") ∧
      (dispatch routeMatch rt req).body.get "message" =
        some (.str "Everything is working perfectly!") ∧
      (dispatch routeMatch rt req).body.get "timestamp" = some (.str rt.now) ∧
      (dispatch routeMatch rt req).body.get "data" =
        some (.obj [("server", .str "healthy"), ("database", .str "connected"),
          ("cache", .str "operational")])) ∧
    (∀ path code text ty,
      (path, code, text, ty) ∈
        ([ ("/health/400", 400, "Bad Request", "ValidationError"),
           ("/health/401", 401, "Unauthorized", "AuthenticationError"),
           ("/health/403", 403, "Forbidden", "AuthorizationError"),
           ("/health/404", 404, "Not Found", "NotFoundError"),
           ("/health/500", 500, "Internal Server Error", "InternalServerError"),
           ("/health/503", 503, "Service Unavailable", "ServiceUnavailableError") ] :
          List (String × ℚ × String × String)) →
      r.path = path →
      (dispatch routeMatch rt req).status = .finite code ∧
      (dispatch routeMatch rt req).body.get "statusCode" = some (.num (.finite code)) ∧
      (dispatch routeMatch rt req).body.get "status" = some (.str text) ∧
      (∃ m, (dispatch routeMatch rt req).body.get "message" = some (.str m)) ∧
      (dispatch routeMatch rt req).body.get "timestamp" = some (.str rt.now) ∧
      ∃ d, (dispatch routeMatch rt req).body.get "error" =
        some (.obj [("type", .str ty), ("details", .str d)])) := by
  rw [dispatch_of_findRoute routeMatch rt req r hr]
  have hmem := findRoute_mem routeMatch req r hr
  simp only [routes, List.mem_cons, List.mem_singleton, List.not_mem_nil, or_false] at hmem
  rcases hmem with rfl | rfl | rfl | rfl | rfl | rfl | rfl | rfl | rfl | rfl
  all_goals
    first
    | (exfalso; revert hm; decide)
    | (refine ⟨?_, ?_, ?_, ?_⟩
       · first
         | (intro h; exfalso; revert h; decide)
         | (intro _; simp [root, JSValue.get, getProp])
       · first
         | (intro h; exfalso; revert h; decide)
         | (intro _; simp [health, JSValue.get, getProp])
       · first
         | (intro h; exfalso; revert h; decide)
         | (intro _; simp [health200, JSValue.get, getProp])
       · intro path code text ty hx hp
         simp only [List.mem_cons, List.mem_singleton, List.not_mem_nil, or_false,
           Prod.mk.injEq] at hx
         rcases hx with ⟨rfl, rfl, rfl, rfl⟩ | ⟨rfl, rfl, rfl, rfl⟩ | ⟨rfl, rfl, rfl, rfl⟩ |
           ⟨rfl, rfl, rfl, rfl⟩ | ⟨rfl, rfl, rfl, rfl⟩ | ⟨rfl, rfl, rfl, rfl⟩
         all_goals
           first
           | (exfalso; revert hp; decide)
           | simp [health400, health401, health403, health404, health500, health503,
               JSValue.get, getProp])


/-- C5, at `GET /health/503` under the literal matcher. -/
theorem fixed_status_routes_witness :
    findRoute matchesLiteral (plainRequest "GET" "/health/503") =
        some ⟨"GET", "/health/503", health503⟩ ∧
      (dispatch matchesLiteral sampleRuntime (plainRequest "GET" "/health/503")).status =
        .finite 503 ∧
      (dispatch matchesLiteral sampleRuntime (plainRequest "GET" "/health/503")).body.get
        "statusCode" = some (.num (.finite 503)) ∧
      (dispatch matchesLiteral sampleRuntime (plainRequest "GET" "/health/503")).body.get
        "error" = some (.obj [("type", .str "ServiceUnavailableError"),
          ("details", .str "Service is down for maintenance or overloaded")]) := by
  have hr : findRoute matchesLiteral (plainRequest "GET" "/health/503") =
      some ⟨"GET", "/health/503", health503⟩ := by rfl
  have h := (fixed_status_routes matchesLiteral sampleRuntime (plainRequest "GET" "/health/503")
    ⟨"GET", "/health/503", health503⟩ hr rfl).2.2.2
    "/health/503" 503 "Service Unavailable" "ServiceUnavailableError" (by simp) rfl
  exact ⟨hr, h.1, h.2.1, by rfl⟩

/-! ## The whole application -/

theorem toInt32_intCast (c : ℤ) (h1 : -2147483648 ≤ c) (h2 : c < 2147483648) :
    toInt32 (.finite c) = c := by
  simp only [toInt32, Rat.intCast_den, Rat.intCast_num, Nat.cast_one, Int.tdiv_one]
  split_ifs <;> omega

theorem toInt32_range (q : ℚ) (h1 : 100 ≤ q) (h2 : q ≤ 599) :
    100 ≤ toInt32 (.finite q) ∧ toInt32 (.finite q) ≤ 599 := by
  have hd : (0 : ℤ) < q.den := by exact_mod_cast q.den_pos
  have hq : (q.num : ℚ) / (q.den : ℚ) = q := Rat.num_div_den q
  have hdq : (0 : ℚ) < (q.den : ℚ) := by exact_mod_cast q.den_pos
  have hlo : 100 * (q.den : ℤ) ≤ q.num := by
    have : (100 : ℚ) * (q.den : ℚ) ≤ (q.num : ℚ) := by
      rw [← hq] at h1
      exact (le_div_iff₀ hdq).mp h1
    exact_mod_cast this
  have hhi : q.num ≤ 599 * (q.den : ℤ) := by
    have : (q.num : ℚ) ≤ (599 : ℚ) * (q.den : ℚ) := by
      rw [← hq] at h2
      exact (div_le_iff₀ hdq).mp h2
    exact_mod_cast this
  have hn : 0 ≤ q.num := by nlinarith
  have ht : q.num.tdiv q.den = q.num / q.den := Int.tdiv_eq_ediv hn (le_of_lt hd)
  have hlo2 : 100 ≤ q.num / (q.den : ℤ) := Int.le_ediv_of_mul_le hd hlo
  have hhi2 : q.num / (q.den : ℤ) ≤ 599 := by
    have := Int.ediv_le_ediv hd hhi
    rwa [Int.mul_ediv_cancel _ (ne_of_gt hd)] at this
  simp only [toInt32, ht]
  split_ifs <;> omega

/-- A request that is not `OPTIONS`, whose body parses and whose path decodes is
answered by the routes and the catch-all. -/
theorem app_of_passed (routeMatch : String → String → Request → Bool) (rt : Runtime)
    (inc : Incoming) (body : JSObject) (path : String)
    (hm : toUpperCase inc.method ≠ "OPTIONS") (hp : inc.parsed = .ok body)
    (hw : inc.wildcard = .ok path) :
    app routeMatch rt inc = send (dispatch routeMatch rt (inc.toRequest body)) := by
  unfold app
  rw [if_neg hm, hp, hw]
  simp only [routed]
  cases findRoute routeMatch (inc.toRequest body) <;> rfl

/-- A request that is not `OPTIONS`, whose body parses and which matches a route
is answered by that route. -/
theorem app_of_route (routeMatch : String → String → Request → Bool) (rt : Runtime)
    (inc : Incoming) (body : JSObject) (r : Route)
    (hm : toUpperCase inc.method ≠ "OPTIONS") (hp : inc.parsed = .ok body)
    (hr : findRoute routeMatch (inc.toRequest body) = some r) :
    app routeMatch rt inc = send (r.handler rt (inc.toRequest body)) := by
  unfold app
  rw [if_neg hm, hp]
  simp only [routed, hr]
  rw [dispatch_of_findRoute routeMatch rt _ r hr]

/-- C6, as stated, fails for an `OPTIONS` request: `OPTIONS /nonexistent` is none
of the ten routes, yet `cors()` answers it with status 204 and no body before
the catch-all is reached, whatever the router matches.  It fails as well when
the framework raises a fault before the catch-all runs: `POST /nonexistent`
with a malformed JSON body and `GET /%` are answered 500 by the error-handling
middleware. -/
theorem options_request_counterexample :
    (∀ r ∈ routes,
        matchesLiteral r.method r.path (plainRequest "OPTIONS" "/nonexistent") = false) ∧
      (∀ (routeMatch : String → String → Request → Bool) (rt : Runtime),
        (app routeMatch rt (incoming "OPTIONS" "/nonexistent" [])).status = 204 ∧
        (app routeMatch rt (incoming "OPTIONS" "/nonexistent" [])).body = none) ∧
      (204 : ℤ) ≠ 404 ∧
      (app matchesLiteral sampleRuntime (malformed "POST" "/nonexistent")).status = 500 ∧
      (app matchesLiteral sampleRuntime (undecodable "GET" "/%")).status = 500 := by
  refine ⟨?_, ?_, by decide, by rfl, by rfl⟩
  · intro r hr
    simp only [routes, List.mem_cons, List.mem_singleton, List.not_mem_nil, or_false] at hr
    rcases hr with rfl | rfl | rfl | rfl | rfl | rfl | rfl | rfl | rfl | rfl <;> decide
  · intro routeMatch rt
    have hm : toUpperCase (incoming "OPTIONS" "/nonexistent" []).method = "OPTIONS" := by
      decide
    unfold app
    rw [if_pos hm]
    exact ⟨rfl, rfl⟩

/-- C6, amended: a request that is not an `OPTIONS` request, whose body the
parsers accept, whose path can be decoded, and which the router matches to none
of the ten registered routes is answered with HTTP 404, `statusCode` 404, the
message "Route <method> <originalUrl> not found" and `availableEndpoints` equal
to the literal list of the ten routes. -/
theorem unmatched_request_not_found (routeMatch : String → String → Request → Bool)
    (rt : Runtime) (inc : Incoming) (body : JSObject) (path : String)
    (hm : toUpperCase inc.method ≠ "OPTIONS") (hp : inc.parsed = .ok body)
    (hw : inc.wildcard = .ok path)
    (h : ∀ r ∈ routes, routeMatch r.method r.path (inc.toRequest body) = false) :
    (app routeMatch rt inc).status = 404 ∧
      ∃ b, (app routeMatch rt inc).body = some b ∧
        b.get "statusCode" = some (.num (.finite 404)) ∧
        b.get "status" = some (.str "Not Found") ∧
        b.get "message" =
          some (.str ("Route " ++ inc.method ++ " " ++ inc.originalUrl ++ " not found")) ∧
        b.get "timestamp" = some (.str rt.now) ∧
        b.get "availableEndpoints" =
          some (.arr
            [ .str "GET /", .str "GET /health", .str "GET /health/200",
              .str "GET /health/400", .str "GET /health/401", .str "GET /health/403",
              .str "GET /health/404", .str "GET /health/500", .str "GET /health/503",
              .str "POST /health/custom" ]) ∧
        b.get "availableEndpoints" =
          some (.arr (routes.map (fun r => .str (r.method ++ " " ++ r.path)))) := by
  have hnone : findRoute routeMatch (inc.toRequest body) = none := by
    unfold findRoute
    rw [List.find?_eq_none]
    intro r hr
    simp [h r hr]
  have hd : dispatch routeMatch rt (inc.toRequest body) = notFound rt (inc.toRequest body) := by
    simp [dispatch, hnone]
  rw [app_of_passed routeMatch rt inc body path hm hp hw, hd]
  have hs : toInt32 (JSNumber.finite 404) = 404 := by decide
  refine ⟨hs, (notFound rt (inc.toRequest body)).body, rfl, ?_, ?_, ?_, ?_, ?_, ?_⟩ <;>
    simp [notFound, Incoming.toRequest, JSValue.get, getProp, routes]

/-- C6 amended, at `POST /health` under the literal matcher: a registered path
with a method its route does not serve. -/
theorem unmatched_request_not_found_witness :
    (app matchesLiteral sampleRuntime (incoming "POST" "/health" [])).status = 404 ∧
      ∃ b, (app matchesLiteral sampleRuntime (incoming "POST" "/health" [])).body = some b ∧
        b.get "message" = some (.str "Route POST /health not found") := by
  have h := unmatched_request_not_found matchesLiteral sampleRuntime
    (incoming "POST" "/health" []) [] "/health" (by decide) rfl rfl
    (by
      intro r hr
      simp only [routes, List.mem_cons, List.mem_singleton, List.not_mem_nil, or_false] at hr
      rcases hr with rfl | rfl | rfl | rfl | rfl | rfl | rfl | rfl | rfl | rfl <;> decide)
  obtain ⟨hs, b, hb, _, _, hmsg, _⟩ := h
  exact ⟨hs, b, hb, by rw [hmsg]; rfl⟩

/-! ## The error middleware and the environment -/

/-- C7, as stated, fails when the fault's message is itself the generic string:
with `NODE_ENV=production` and a fault whose message is "Internal server error",
`body.error` equals the fault's message although the environment is not
"development". -/
theorem error_detail_iff_counterexample :
    ¬ ((errorHandler productionRuntime ⟨"Internal server error"⟩).body.get "error" =
          some (.str (Fault.mk "Internal server error").message) ↔
        productionRuntime.nodeEnv = some "development") := by
  intro h
  have hd : productionRuntime.nodeEnv = some "development" := h.mp (by rfl)
  revert hd
  decide

/-- C7, amended: the error middleware answers every fault with HTTP 500,
`statusCode` 500 and the message "Something went wrong!"; `body.error` is the
fault's own message when the environment name is "development" and the generic
string "Internal server error" for every other value, so it equals the fault's
message exactly when the environment is "development" or the fault's message is
itself the generic string. -/
theorem error_handler_response (rt : Runtime) (err : Fault) :
    (errorHandler rt err).status = .finite 500 ∧
      (errorHandler rt err).body.get "statusCode" = some (.num (.finite 500)) ∧
      (errorHandler rt err).body.get "status" = some (.str "Internal Server Error") ∧
      (errorHandler rt err).body.get "message" = some (.str "Something went wrong!") ∧
      (rt.nodeEnv = some "development" →
        (errorHandler rt err).body.get "error" = some (.str err.message)) ∧
      (rt.nodeEnv ≠ some "development" →
        (errorHandler rt err).body.get "error" = some (.str "Internal server error")) ∧
      ((errorHandler rt err).body.get "error" = some (.str err.message) ↔
        (rt.nodeEnv = some "development" ∨ err.message = "Internal server error")) := by
  refine ⟨rfl, ?_, ?_, ?_, ?_, ?_, ?_⟩
  · simp [errorHandler, JSValue.get, getProp]
  · simp [errorHandler, JSValue.get, getProp]
  · simp [errorHandler, JSValue.get, getProp]
  · intro h
    simp [errorHandler, JSValue.get, getProp, h]
  · intro h
    simp [errorHandler, JSValue.get, getProp, h]
  · by_cases h : rt.nodeEnv = some "development"
    · simp [errorHandler, JSValue.get, getProp, h]
    · simp [errorHandler, JSValue.get, getProp, h, eq_comm]

/-- C7 amended, at the fault "boom" under `development` and under `production`. -/
theorem error_handler_response_witness :
    (errorHandler developmentRuntime ⟨"boom"⟩).body.get "error" = some (.str "boom") ∧
      (errorHandler productionRuntime ⟨"boom"⟩).body.get "error" =
        some (.str "Internal server error") :=
  ⟨(error_handler_response developmentRuntime ⟨"boom"⟩).2.2.2.2.1 rfl,
   (error_handler_response productionRuntime ⟨"boom"⟩).2.2.2.2.2.1 (by decide)⟩

/-- The routes and the catch-all answer the same with `NODE_ENV` unset as with
`NODE_ENV=development`. -/
theorem dispatch_unset_env (routeMatch : String → String → Request → Bool) (rt : Runtime)
    (req : Request) :
    dispatch routeMatch { rt with nodeEnv := none } req =
      dispatch routeMatch { rt with nodeEnv := some "development" } req := by
  unfold dispatch
  cases hr : findRoute routeMatch req with
  | none => rfl
  | some r =>
    have hmem := findRoute_mem routeMatch req r hr
    simp only [routes, List.mem_cons, List.mem_singleton, List.not_mem_nil, or_false] at hmem
    rcases hmem with rfl | rfl | rfl | rfl | rfl | rfl | rfl | rfl | rfl | rfl <;> rfl

/-- C8, at a request with a malformed JSON body: with `NODE_ENV` unset the
error middleware answers `body.error` "Internal server error", with
`NODE_ENV=development` it answers the parser's message, so the two responses
differ; yet with `NODE_ENV` unset `GET /health` reports the environment
"development". -/
theorem unset_env_hides_fault_detail :
    sampleRuntime.nodeEnv = none ∧
      developmentRuntime = { sampleRuntime with nodeEnv := some "development" } ∧
      (app matchesLiteral sampleRuntime (malformed "POST" "/health/custom")).body =
        some (errorHandler sampleRuntime ⟨"Unexpected end of JSON input"⟩).body ∧
      (errorHandler sampleRuntime ⟨"Unexpected end of JSON input"⟩).body.get "error" =
        some (.str "Internal server error") ∧
      (app matchesLiteral developmentRuntime (malformed "POST" "/health/custom")).body =
        some (errorHandler developmentRuntime ⟨"Unexpected end of JSON input"⟩).body ∧
      (errorHandler developmentRuntime ⟨"Unexpected end of JSON input"⟩).body.get "error" =
        some (.str "Unexpected end of JSON input") ∧
      app matchesLiteral sampleRuntime (malformed "POST" "/health/custom") ≠
        app matchesLiteral developmentRuntime (malformed "POST" "/health/custom") ∧
      (dispatch matchesLiteral sampleRuntime (plainRequest "GET" "/health")).body.get
        "environment" = some (.str "development") := by
  have h1 : (app matchesLiteral sampleRuntime (malformed "POST" "/health/custom")).body =
      some (errorHandler sampleRuntime ⟨"Unexpected end of JSON input"⟩).body := by rfl
  have h2 : (app matchesLiteral developmentRuntime (malformed "POST" "/health/custom")).body =
      some (errorHandler developmentRuntime ⟨"Unexpected end of JSON input"⟩).body := by rfl
  refine ⟨rfl, rfl, h1, by rfl, h2, by rfl, ?_, by rfl⟩
  intro h
  have hb := congrArg Reply.body h
  rw [h1, h2] at hb
  have he := congrArg (fun o => o.bind (fun b => b.get "error")) hb
  have he2 : some (JSValue.str "Internal server error") =
      some (JSValue.str "Unexpected end of JSON input") := he
  simp at he2

/-! ## Repeated requests -/

/-- C9, as stated, fails for `GET /health`: two identical requests served at
uptimes 12 and 17 get bodies that differ in the field `uptime`, which is not
the timestamp. -/
theorem health_uptime_counterexample :
    sampleRuntime.nodeEnv = laterRuntime.nodeEnv ∧
      (dispatch matchesLiteral sampleRuntime (plainRequest "GET" "/health")).body.get "uptime" =
        some (.num (.finite 12)) ∧
      (dispatch matchesLiteral laterRuntime (plainRequest "GET" "/health")).body.get "uptime" =
        some (.num (.finite 17)) ∧
      (dispatch matchesLiteral sampleRuntime (plainRequest "GET" "/health")).body.get "uptime" ≠
        (dispatch matchesLiteral laterRuntime (plainRequest "GET" "/health")).body.get "uptime" ∧
      "uptime" ≠ "timestamp" := by
  have h1 : (dispatch matchesLiteral sampleRuntime (plainRequest "GET" "/health")).body.get
      "uptime" = some (.num (.finite 12)) := by rfl
  have h2 : (dispatch matchesLiteral laterRuntime (plainRequest "GET" "/health")).body.get
      "uptime" = some (.num (.finite 17)) := by rfl
  refine ⟨rfl, h1, h2, ?_, by decide⟩
  rw [h1, h2]
  intro h
  simp only [Option.some.injEq, JSValue.num.injEq, JSNumber.finite.injEq] at h
  norm_num at h

/-- C9, amended: for every fixed-status route, two identical requests served by
one process (same `NODE_ENV`) at any two times and uptimes get the same HTTP
status and bodies equal in every field other than `timestamp` and, for
`GET /health`, `uptime`. -/
theorem fixed_routes_repeatable (routeMatch : String → String → Request → Bool)
    (rt1 rt2 : Runtime) (req : Request) (r : Route)
    (henv : rt1.nodeEnv = rt2.nodeEnv)
    (hr : findRoute routeMatch req = some r) (hm : r.method = "GET") :
    (dispatch routeMatch rt1 req).status = (dispatch routeMatch rt2 req).status ∧
      ∀ k : String, k ≠ "timestamp" → (r.path = "/health" → k ≠ "uptime") →
        (dispatch routeMatch rt1 req).body.get k = (dispatch routeMatch rt2 req).body.get k := by
  rw [dispatch_of_findRoute routeMatch rt1 req r hr, dispatch_of_findRoute routeMatch rt2 req r hr]
  have hmem := findRoute_mem routeMatch req r hr
  simp only [routes, List.mem_cons, List.mem_singleton, List.not_mem_nil, or_false] at hmem
  rcases hmem with rfl | rfl | rfl | rfl | rfl | rfl | rfl | rfl | rfl | rfl
  all_goals
    first
    | (exfalso; revert hm; decide)
    | (refine ⟨rfl, ?_⟩
       intro k hk hu
       have hk2 : ¬ "timestamp" = k := fun e => hk e.symm
       first
       | (have hu2 : ¬ "uptime" = k := fun e => hu rfl e.symm
          simp [health, JSValue.get, getProp, hk2, hu2, henv])
       | simp [root, health200, health400, health401, health403, health404, health500,
           health503, JSValue.get, getProp, hk2])

/-- C9 amended, at `GET /health/400` served at two times and uptimes. -/
theorem fixed_routes_repeatable_witness :
    (dispatch matchesLiteral sampleRuntime (plainRequest "GET" "/health/400")).status =
        (dispatch matchesLiteral laterRuntime (plainRequest "GET" "/health/400")).status ∧
      (dispatch matchesLiteral sampleRuntime (plainRequest "GET" "/health/400")).body.get
          "error" =
        (dispatch matchesLiteral laterRuntime (plainRequest "GET" "/health/400")).body.get
          "error" := by
  have h := fixed_routes_repeatable matchesLiteral sampleRuntime laterRuntime
    (plainRequest "GET" "/health/400") ⟨"GET", "/health/400", health400⟩ rfl (by rfl) rfl
  exact ⟨h.1, h.2 "error" (by decide) (by decide)⟩

/-! ## Body and transport -/

theorem custom_cases (rt : Runtime) (req : Request) :
    custom rt req = customInvalid rt ∨ custom rt req = customOutOfRange rt ∨
      ∃ q : ℚ, custom rt req = customEcho rt (.finite q) ∧ 100 ≤ q ∧ q ≤ 599 := by
  by_cases hn : ∃ n, getProp req.body "statusCode" = some (.num n)
  · obtain ⟨n, hn⟩ := hn
    rw [custom_of_num rt req n hn]
    split_ifs with h1 h2
    · exact Or.inl rfl
    · exact Or.inr (Or.inl rfl)
    · cases n with
      | finite q =>
        simp only [JSNumber.lt, decide_eq_true_eq, not_or, not_lt] at h2
        exact Or.inr (Or.inr ⟨q, rfl, h2.1, h2.2⟩)
      | posInf => exact absurd (Or.inr rfl) h2
      | negInf => exact absurd (Or.inl rfl) h2
      | nan => exact absurd rfl h1
  · exact Or.inl (custom_of_not_num rt req (fun n h => hn ⟨n, h⟩))

/-- What the custom-status handler hands over: a `statusCode` field of the body
is the very value given to `res.status`, and that value lies between 100 and
599. -/
theorem custom_handover (rt : Runtime) (req : Request) :
    (∀ v, (custom rt req).body.get "statusCode" = some v → v = .num (custom rt req).status) ∧
      ∃ q : ℚ, (custom rt req).status = .finite q ∧ 100 ≤ q ∧ q ≤ 599 := by
  rcases custom_cases rt req with hc | hc | ⟨q, hc, hlo, hhi⟩ <;> rw [hc]
  · refine ⟨?_, 400, rfl, by norm_num, by norm_num⟩
    intro v h
    simp [customInvalid, JSValue.get, getProp] at h
    rw [← h]
    rfl
  · refine ⟨?_, 400, rfl, by norm_num, by norm_num⟩
    intro v h
    simp [customOutOfRange, JSValue.get, getProp] at h
    rw [← h]
    rfl
  · refine ⟨?_, q, rfl, hlo, hhi⟩
    intro v h
    simp [customEcho, JSValue.get, getProp] at h
    rw [← h]
    rfl

/-- What each registered handler hands over: a `statusCode` field of the body is
the very value given to `res.status`, and that value lies between 100 and 599. -/
theorem route_handover (r : Route) (hmem : r ∈ routes) (rt : Runtime) (req : Request) :
    (∀ v, (r.handler rt req).body.get "statusCode" = some v →
        v = .num (r.handler rt req).status) ∧
      ∃ q : ℚ, (r.handler rt req).status = .finite q ∧ 100 ≤ q ∧ q ≤ 599 := by
  simp only [routes, List.mem_cons, List.mem_singleton, List.not_mem_nil, or_false] at hmem
  rcases hmem with rfl | rfl | rfl | rfl | rfl | rfl | rfl | rfl | rfl | rfl
  all_goals
    first
    | exact custom_handover rt req
    | (refine ⟨?_, _, rfl, by norm_num, by norm_num⟩
       intro v h
       simp [root, health, health200, health400, health401, health403, health404, health500,
         health503, JSValue.get, getProp] at h
       try (rw [← h]; rfl))

/-- What the catch-all and the routes hand over, whatever the router matches. -/
theorem dispatch_handover (routeMatch : String → String → Request → Bool) (rt : Runtime)
    (req : Request) :
    (∀ v, (dispatch routeMatch rt req).body.get "statusCode" = some v →
        v = .num (dispatch routeMatch rt req).status) ∧
      ∃ q : ℚ, (dispatch routeMatch rt req).status = .finite q ∧ 100 ≤ q ∧ q ≤ 599 := by
  unfold dispatch
  cases hr : findRoute routeMatch req with
  | none =>
    refine ⟨?_, 404, rfl, by norm_num, by norm_num⟩
    intro v h
    simp [notFound, JSValue.get, getProp] at h
    rw [← h]
    rfl
  | some r => exact route_handover r (findRoute_mem routeMatch req r hr) rt req

/-- What the error-handling middleware hands over. -/
theorem errorHandler_handover (rt : Runtime) (err : Fault) :
    (∀ v, (errorHandler rt err).body.get "statusCode" = some v →
        v = .num (errorHandler rt err).status) ∧
      ∃ q : ℚ, (errorHandler rt err).status = .finite q ∧ 100 ≤ q ∧ q ≤ 599 := by
  refine ⟨?_, 500, rfl, by norm_num, by norm_num⟩
  intro v h
  simp [errorHandler, JSValue.get, getProp] at h
  rw [← h]
  rfl

/-- Every reply of the application is either the bodyless 204 of `cors()` or the
reply written for a response whose `statusCode` field is the status the handler
set, a number between 100 and 599. -/
theorem app_cases (routeMatch : String → String → Request → Bool) (rt : Runtime)
    (inc : Incoming) :
    app routeMatch rt inc = { status := 204, body := none } ∨
      ∃ r : Response, app routeMatch rt inc = send r ∧
        (∀ v, r.body.get "statusCode" = some v → v = .num r.status) ∧
        ∃ q : ℚ, r.status = .finite q ∧ 100 ≤ q ∧ q ≤ 599 := by
  unfold app
  split_ifs with hm
  · exact Or.inl rfl
  · right
    cases hp : inc.parsed with
    | error err => exact ⟨_, rfl, errorHandler_handover rt err⟩
    | ok body =>
      refine ⟨_, rfl, ?_⟩
      unfold routed
      cases hf : findRoute routeMatch (inc.toRequest body) with
      | none =>
        cases hw : inc.wildcard with
        | error err => exact errorHandler_handover rt err
        | ok path => exact dispatch_handover routeMatch rt _
      | some r => exact dispatch_handover routeMatch rt _

/-- The status line of every reply lies between 100 and 599, so the HTTP layer
never refuses it. -/
theorem send_status_range (routeMatch : String → String → Request → Bool) (rt : Runtime)
    (inc : Incoming) :
    100 ≤ (app routeMatch rt inc).status ∧ (app routeMatch rt inc).status ≤ 599 := by
  rcases app_cases routeMatch rt inc with h | ⟨r, h, _, q, hq, hlo, hhi⟩ <;> rw [h]
  · exact ⟨by decide, by decide⟩
  · simp only [send, hq]
    exact toInt32_range q hlo hhi

/-- C10, as stated, fails for a `statusCode` that is not an integer: the body
`{statusCode: 200.5}` passes the range check, the body of the response echoes
200.5, and the status line carries 200. -/
theorem fractional_statusCode_counterexample :
    (app matchesLiteral printingRuntime
        (incoming "POST" "/health/custom"
          [("statusCode", .num (.finite twoHundredAndAHalf))])).status = 200 ∧
      (app matchesLiteral printingRuntime
        (incoming "POST" "/health/custom"
          [("statusCode", .num (.finite twoHundredAndAHalf))])).body =
        some (.obj
          [ ("status", .str "Unknown Status"),
            ("statusCode", .num (.finite twoHundredAndAHalf)),
            ("message", .str "Custom response with status code 200.5"),
            ("timestamp", .str "2024-01-01T00:00:00.000Z"),
            ("custom", .bool true) ]) ∧
      twoHundredAndAHalf ≠ 200 ∧
      twoHundredAndAHalf * 2 = 401 := by
  refine ⟨by rfl, by rfl, by decide, ?_⟩
  have h := Rat.num_div_den twoHundredAndAHalf
  have hn : twoHundredAndAHalf.num = 401 := rfl
  have hd : twoHundredAndAHalf.den = 2 := rfl
  rw [hn, hd] at h
  rw [← h]
  norm_num

/-- C10, amended: in every reply of the application (the ten registered
handlers on any request, every branch of `POST /health/custom` among them, the
catch-all, and the error middleware on any fault), a `statusCode` field of the
body whose value is an integer equals the HTTP status code of the reply. -/
theorem integer_statusCode_is_status (routeMatch : String → String → Request → Bool)
    (rt : Runtime) (inc : Incoming) (b : JSValue) (c : ℤ)
    (hb : (app routeMatch rt inc).body = some b)
    (hv : b.get "statusCode" = some (.num (.finite c))) :
    (app routeMatch rt inc).status = c := by
  rcases app_cases routeMatch rt inc with h | ⟨r, h, hag, q, hq, hlo, hhi⟩
  · rw [h] at hb
    exact absurd hb (by simp)
  · rw [h] at hb ⊢
    have hbr : r.body = b := by
      simp only [send, Option.some.injEq] at hb
      exact hb
    rw [← hbr] at hv
    have hst := hag _ hv
    have hqc : (c : ℚ) = q := by
      rw [hq] at hst
      injection hst with hst
      injection hst
    have h1 : (100 : ℤ) ≤ c := by
      have : (100 : ℚ) ≤ (c : ℚ) := by rw [hqc]; exact hlo
      exact_mod_cast this
    have h2 : c ≤ (599 : ℤ) := by
      have : (c : ℚ) ≤ (599 : ℚ) := by rw [hqc]; exact hhi
      exact_mod_cast this
    simp only [send, hq, ← hqc]
    exact toInt32_intCast c (by omega) (by omega)

/-- C10 amended, at `POST /health/custom` with `{statusCode: 201}` under the
literal matcher: the body carries `statusCode` 201 and the status line 201. -/
theorem integer_statusCode_is_status_witness :
    (app matchesLiteral sampleRuntime
        (incoming "POST" "/health/custom" [("statusCode", .num (.finite 201))])).body =
        some (customEcho sampleRuntime (.finite 201)).body ∧
      (customEcho sampleRuntime (.finite 201)).body.get "statusCode" =
        some (.num (.finite 201)) ∧
      (app matchesLiteral sampleRuntime
        (incoming "POST" "/health/custom" [("statusCode", .num (.finite 201))])).status =
        201 := by
  have hb : (app matchesLiteral sampleRuntime
      (incoming "POST" "/health/custom" [("statusCode", .num (.finite 201))])).body =
      some (customEcho sampleRuntime (.finite 201)).body := by rfl
  have hv : (customEcho sampleRuntime (.finite 201)).body.get "statusCode" =
      some (.num (.finite ((201 : ℤ) : ℚ))) := by
    simp [customEcho, JSValue.get, getProp]
  have h := integer_statusCode_is_status matchesLiteral sampleRuntime
    (incoming "POST" "/health/custom" [("statusCode", .num (.finite 201))])
    (customEcho sampleRuntime (.finite 201)).body 201 hb hv
  exact ⟨hb, by rfl, by simpa using h⟩

end HelloMJ
